import Mathlib

/-!
Verification development for the Kube-cred credential system.

The development shallowly embeds the credential signature scheme
(`CryptoUtils.generateCredentialSignature` / `verifyCredentialSignature`),
the verification state machine (`VerificationModel.verifyCredential`,
`compareCredentials`, `saveVerification`), the issuance workflow
(`CredentialController.issueCredential`, `CredentialModel.create`,
`findByHolderAndType`) and the expiry predicate (`CredentialModel.isExpired`).

Strings are modelled as Lean `String`; the SHA-256 digest is modelled as an
abstract function `H : List Char → String` (theorems about tamper detection
assume `H` is collision-free, i.e. injective); JavaScript `Date` values are
modelled through an abstract valuation `dateVal : String → Int` together
with the current instant `now : Int`.  Databases are lists of records, an
`INSERT` is an append.
-/

set_option maxRecDepth 8192

namespace KubeCred

/-- Lower-case hexadecimal digit, as produced by `JSON.stringify` for
control-character escapes. -/
def hexDigit (n : Nat) : Char :=
  if n < 10 then Char.ofNat (48 + n) else Char.ofNat (87 + n)

/-- Inverse of `hexDigit` on digits. -/
def unhex (c : Char) : Nat :=
  if 97 ≤ c.toNat then c.toNat - 87 else c.toNat - 48

/-- Model of `JSON.stringify` escaping of one character inside a string literal. -/
def escChar (c : Char) : List Char :=
  if c = '"' then ['\\', '"']
  else if c = '\\' then ['\\', '\\']
  else if c = '\x08' then ['\\', 'b']
  else if c = '\x09' then ['\\', 't']
  else if c = '\x0a' then ['\\', 'n']
  else if c = '\x0c' then ['\\', 'f']
  else if c = '\x0d' then ['\\', 'r']
  else if c.toNat < 32 then ['\\', 'u', '0', '0', hexDigit (c.toNat / 16), hexDigit (c.toNat % 16)]
  else [c]

/-- Model of `JSON.stringify` escaping of a whole string body. -/
def escStr : List Char → List Char
  | [] => []
  | c :: r => escChar c ++ escStr r

/-- Meaning of a single-letter escape sequence. -/
def escCode (c : Char) : Option Char :=
  if c = '"' then some '"'
  else if c = '\\' then some '\\'
  else if c = 'b' then some '\x08'
  else if c = 't' then some '\x09'
  else if c = 'n' then some '\x0a'
  else if c = 'f' then some '\x0c'
  else if c = 'r' then some '\x0d'
  else none

/-- One-step decoder of an escaped string body: returns the first decoded
character and the remaining input. -/
def decode1 : List Char → Option (Char × List Char)
  | [] => none
  | c :: r =>
    if c = '\\' then
      match r with
      | 'u' :: '0' :: '0' :: h1 :: h2 :: r3 =>
          some (Char.ofNat (16 * unhex h1 + unhex h2), r3)
      | d :: r2 =>
          match escCode d with
          | some e => some (e, r2)
          | none => none
      | [] => none
    else some (c, r)

theorem unhex_hexDigit : ∀ n < 16, unhex (hexDigit n) = n := by decide

/-- Decoding undoes the escaping of a single character, whatever follows. -/
theorem decode1_escChar (c : Char) (r : List Char) :
    decode1 (escChar c ++ r) = some (c, r) := by
  by_cases h1 : c = '"'
  · subst h1; simp [escChar, decode1, escCode]
  by_cases h2 : c = '\\'
  · subst h2; simp [escChar, decode1, escCode]
  by_cases h3 : c = '\x08'
  · subst h3; simp [escChar, decode1, escCode]
  by_cases h4 : c = '\x09'
  · subst h4; simp [escChar, decode1, escCode]
  by_cases h5 : c = '\x0a'
  · subst h5; simp [escChar, decode1, escCode]
  by_cases h6 : c = '\x0c'
  · subst h6; simp [escChar, decode1, escCode]
  by_cases h7 : c = '\x0d'
  · subst h7; simp [escChar, decode1, escCode]
  by_cases h8 : c.toNat < 32
  · have e1 := unhex_hexDigit _ (show c.toNat / 16 < 16 by omega)
    have e2 := unhex_hexDigit _ (show c.toNat % 16 < 16 from Nat.mod_lt _ (by norm_num))
    have hn : c.toNat / 16 * 16 + c.toNat % 16 = c.toNat := by omega
    have hn' : 16 * (c.toNat / 16) + c.toNat % 16 = c.toNat := by omega
    simp [escChar, if_neg h1, if_neg h2, if_neg h3, if_neg h4, if_neg h5, if_neg h6,
      if_neg h7, if_pos h8, decode1, e1, e2, hn, hn', Char.ofNat_toNat]
  · simp only [escChar, if_neg h1, if_neg h2, if_neg h3, if_neg h4, if_neg h5, if_neg h6,
      if_neg h7, if_neg h8]
    simp [decode1, h2]

theorem escChar_ne_nil (c : Char) : escChar c ≠ [] := by
  unfold escChar
  split_ifs <;> simp

/-- The escaping of a string body is injective: distinct bodies have
distinct escaped forms. -/
theorem escStr_injective : Function.Injective escStr := by
  intro l1
  induction l1 with
  | nil =>
    intro l2 h
    cases l2 with
    | nil => rfl
    | cons c t =>
      exfalso
      have : escChar c ++ escStr t = [] := by simpa [escStr] using h.symm
      exact escChar_ne_nil c (List.append_eq_nil.mp this).1
  | cons c1 t1 ih =>
    intro l2 h
    cases l2 with
    | nil =>
      exfalso
      have : escChar c1 ++ escStr t1 = [] := by simpa [escStr] using h
      exact escChar_ne_nil c1 (List.append_eq_nil.mp this).1
    | cons c2 t2 =>
      have h' : escChar c1 ++ escStr t1 = escChar c2 ++ escStr t2 := by
        simpa [escStr] using h
      have hd := congrArg decode1 h'
      rw [decode1_escChar, decode1_escChar] at hd
      have hc : c1 = c2 := by simpa using congrArg (fun p => (Option.getD p (' ', [])).1) hd
      have ht : escStr t1 = escStr t2 := by
        simpa using congrArg (fun p => (Option.getD p (' ', [])).2) hd
      rw [hc, ih ht]

/-- The canonical field set signed by the Signature Engine: the
`Omit` of signature, created_at and updated_at from `Credential`, the argument of
`CryptoUtils.generateCredentialSignature`. -/
structure CanonicalData where
  id : String
  holder_name : String
  issuer : String
  issued_date : String
  credential_type : String
  expiry_date : String
  worker_id : String
deriving DecidableEq

/-- The full credential record (`Credential` in `types/index.ts`). -/
structure Credential where
  id : String
  holder_name : String
  issuer : String
  issued_date : String
  credential_type : String
  expiry_date : String
  signature : String
  worker_id : String
  created_at : String
  updated_at : String
deriving DecidableEq

/-- The seven canonical fields of a credential, as extracted inside
`verifyCredentialSignature`. -/
def Credential.canon (c : Credential) : CanonicalData :=
  ⟨c.id, c.holder_name, c.issuer, c.issued_date, c.credential_type, c.expiry_date, c.worker_id⟩

/-- A JSON string literal: quote, escaped body, quote. -/
def quoteStr (s : String) : List Char :=
  '"' :: (escStr s.data ++ ['"'])

/-- Model of `JSON.stringify` of the canonical field object, with the source's key
insertion order. -/
def canonicalJson (c : CanonicalData) : List Char :=
  "\x7b\"id\":".data ++ quoteStr c.id
  ++ ",\"holder_name\":".data ++ quoteStr c.holder_name
  ++ ",\"issuer\":".data ++ quoteStr c.issuer
  ++ ",\"issued_date\":".data ++ quoteStr c.issued_date
  ++ ",\"credential_type\":".data ++ quoteStr c.credential_type
  ++ ",\"expiry_date\":".data ++ quoteStr c.expiry_date
  ++ ",\"worker_id\":".data ++ quoteStr c.worker_id
  ++ "\x7d".data

/-- Model of `CryptoUtils.generateCredentialSignature`: keyed digest of the canonical
JSON concatenated with the shared secret.  `H` models the SHA-256 hex
digest. -/
def generateCredentialSignature (H : List Char → String) (secret : String)
    (c : CanonicalData) : String :=
  H (canonicalJson c ++ secret.data)

/-- Model of `CryptoUtils.verifyCredentialSignature`: recompute over the credential's
own canonical fields and compare with the stored signature. -/
def verifyCredentialSignature (H : List Char → String) (secret : String)
    (cr : Credential) : Bool :=
  generateCredentialSignature H secret cr.canon == cr.signature

theorem quoteStr_cancel {B : List Char} {x y : String}
    (h : quoteStr x ++ B = quoteStr y ++ B) : x = y := by
  simp only [quoteStr, List.cons_append, List.cons.injEq, true_and,
    List.append_assoc, List.singleton_append] at h
  have := escStr_injective (List.append_cancel_right h)
  exact String.ext this

theorem canonicalJson_id_inj {f1 f2 f3 f4 f5 f6 f7 v : String}
    (h : canonicalJson ⟨v, f2, f3, f4, f5, f6, f7⟩ = canonicalJson ⟨f1, f2, f3, f4, f5, f6, f7⟩) :
    v = f1 := by
  simp only [canonicalJson, List.append_assoc] at h
  replace h := List.append_cancel_left h
  exact quoteStr_cancel h

theorem canonicalJson_holder_inj {f1 f2 f3 f4 f5 f6 f7 v : String}
    (h : canonicalJson ⟨f1, v, f3, f4, f5, f6, f7⟩ = canonicalJson ⟨f1, f2, f3, f4, f5, f6, f7⟩) :
    v = f2 := by
  simp only [canonicalJson, List.append_assoc] at h
  replace h := List.append_cancel_left h
  replace h := List.append_cancel_left h
  replace h := List.append_cancel_left h
  exact quoteStr_cancel h

theorem canonicalJson_issuer_inj {f1 f2 f3 f4 f5 f6 f7 v : String}
    (h : canonicalJson ⟨f1, f2, v, f4, f5, f6, f7⟩ = canonicalJson ⟨f1, f2, f3, f4, f5, f6, f7⟩) :
    v = f3 := by
  simp only [canonicalJson, List.append_assoc] at h
  replace h := List.append_cancel_left h
  replace h := List.append_cancel_left h
  replace h := List.append_cancel_left h
  replace h := List.append_cancel_left h
  replace h := List.append_cancel_left h
  exact quoteStr_cancel h

theorem canonicalJson_issued_inj {f1 f2 f3 f4 f5 f6 f7 v : String}
    (h : canonicalJson ⟨f1, f2, f3, v, f5, f6, f7⟩ = canonicalJson ⟨f1, f2, f3, f4, f5, f6, f7⟩) :
    v = f4 := by
  simp only [canonicalJson, List.append_assoc] at h
  replace h := List.append_cancel_left h
  replace h := List.append_cancel_left h
  replace h := List.append_cancel_left h
  replace h := List.append_cancel_left h
  replace h := List.append_cancel_left h
  replace h := List.append_cancel_left h
  replace h := List.append_cancel_left h
  exact quoteStr_cancel h

theorem canonicalJson_type_inj {f1 f2 f3 f4 f5 f6 f7 v : String}
    (h : canonicalJson ⟨f1, f2, f3, f4, v, f6, f7⟩ = canonicalJson ⟨f1, f2, f3, f4, f5, f6, f7⟩) :
    v = f5 := by
  simp only [canonicalJson, List.append_assoc] at h
  replace h := List.append_cancel_left h
  replace h := List.append_cancel_left h
  replace h := List.append_cancel_left h
  replace h := List.append_cancel_left h
  replace h := List.append_cancel_left h
  replace h := List.append_cancel_left h
  replace h := List.append_cancel_left h
  replace h := List.append_cancel_left h
  replace h := List.append_cancel_left h
  exact quoteStr_cancel h

theorem canonicalJson_expiry_inj {f1 f2 f3 f4 f5 f6 f7 v : String}
    (h : canonicalJson ⟨f1, f2, f3, f4, f5, v, f7⟩ = canonicalJson ⟨f1, f2, f3, f4, f5, f6, f7⟩) :
    v = f6 := by
  simp only [canonicalJson, List.append_assoc] at h
  replace h := List.append_cancel_left h
  replace h := List.append_cancel_left h
  replace h := List.append_cancel_left h
  replace h := List.append_cancel_left h
  replace h := List.append_cancel_left h
  replace h := List.append_cancel_left h
  replace h := List.append_cancel_left h
  replace h := List.append_cancel_left h
  replace h := List.append_cancel_left h
  replace h := List.append_cancel_left h
  replace h := List.append_cancel_left h
  exact quoteStr_cancel h

theorem canonicalJson_worker_inj {f1 f2 f3 f4 f5 f6 f7 v : String}
    (h : canonicalJson ⟨f1, f2, f3, f4, f5, f6, v⟩ = canonicalJson ⟨f1, f2, f3, f4, f5, f6, f7⟩) :
    v = f7 := by
  simp only [canonicalJson, List.append_assoc] at h
  replace h := List.append_cancel_left h
  replace h := List.append_cancel_left h
  replace h := List.append_cancel_left h
  replace h := List.append_cancel_left h
  replace h := List.append_cancel_left h
  replace h := List.append_cancel_left h
  replace h := List.append_cancel_left h
  replace h := List.append_cancel_left h
  replace h := List.append_cancel_left h
  replace h := List.append_cancel_left h
  replace h := List.append_cancel_left h
  replace h := List.append_cancel_left h
  replace h := List.append_cancel_left h
  exact quoteStr_cancel h

/-- The five terminal verification statuses. -/
inductive VStatus
  | valid
  | invalid
  | expired
  | not_found
  | signature_mismatch
deriving DecidableEq

/-- Outcome of `issuanceClient.getCredential`: a parsed credential, an
explicit 404 "not found" (returned as `null`), or a thrown transport
error. -/
inductive LookupOutcome
  | found (c : Credential)
  | notFound
  | err
deriving DecidableEq

/-- A persisted `VerificationResult` row. -/
structure VerificationRecord where
  id : String
  credential_id : String
  is_valid : Bool
  is_expired : Bool
  verification_status : VStatus
  verified_by : String
  verified_at : String
  issuer_worker_id : Option String
  issued_date : Option String
deriving DecidableEq

/-- The `...(x && \x7b field: x \x7d)` object-spread: the field is present
exactly when the string is truthy (non-empty). -/
def optionalField (s : String) : Option String :=
  if s = "" then none else some s

/-- Model of `VerificationModel.compareCredentials`: field-by-field equality of the
seven compared fields. -/
def compareCredentials (c1 c2 : Credential) : Bool :=
  c1.id == c2.id &&
  c1.holder_name == c2.holder_name &&
  c1.issuer == c2.issuer &&
  c1.issued_date == c2.issued_date &&
  c1.credential_type == c2.credential_type &&
  c1.expiry_date == c2.expiry_date &&
  c1.signature == c2.signature

/-- The body of `VerificationModel.verifyCredential` up to (and excluding)
the database write.  `lookup` models `issuanceClient.getCredential`;
`dateVal`/`now` model JavaScript date comparison; `vid`, `workerId` and
`nowStr` model the generated UUID, `process.env.WORKER_ID` and the
`verified_at` timestamp.  The second component records whether the
inter-service lookup was invoked on this execution. -/
def runVerification (H : List Char → String) (secret : String)
    (lookup : String → LookupOutcome) (dateVal : String → Int) (now : Int)
    (vid workerId nowStr : String) (cred : Credential) :
    VerificationRecord × Bool :=
  if verifyCredentialSignature H secret cred then
    let rec' : VerificationRecord :=
      match lookup cred.id with
      | .err =>
          ⟨vid, cred.id, false, false, .invalid, workerId, nowStr, none, none⟩
      | .notFound =>
          ⟨vid, cred.id, false, false, .not_found, workerId, nowStr, none, none⟩
      | .found auth =>
          if compareCredentials cred auth then
            if dateVal cred.expiry_date < now then
              ⟨vid, cred.id, false, true, .expired, workerId, nowStr,
                optionalField auth.worker_id, optionalField auth.issued_date⟩
            else
              ⟨vid, cred.id, true, false, .valid, workerId, nowStr,
                optionalField auth.worker_id, optionalField auth.issued_date⟩
          else
            ⟨vid, cred.id, false, false, .invalid, workerId, nowStr, none, none⟩
    (rec', true)
  else
    (⟨vid, cred.id, false, false, .signature_mismatch, workerId, nowStr, none, none⟩, false)

/-- Model of `VerificationModel.saveVerification`: the `INSERT` into the
verifications table, modelled as an append. -/
def saveVerification (db : List VerificationRecord) (v : VerificationRecord) :
    List VerificationRecord :=
  db ++ [v]

/-- Full `VerificationModel.verifyCredential`: classify, then persist the
verification record before returning it.  Returns the record, the
lookup-invoked flag, and the new verification store. -/
def verifyCredentialAndSave (H : List Char → String) (secret : String)
    (lookup : String → LookupOutcome) (dateVal : String → Int) (now : Int)
    (vid workerId nowStr : String) (cred : Credential)
    (db : List VerificationRecord) :
    VerificationRecord × Bool × List VerificationRecord :=
  let r := runVerification H secret lookup dateVal now vid workerId nowStr cred
  (r.1, r.2, saveVerification db r.1)

/-- Model of `CredentialModel.isExpired`: `new Date(expiry_date) < new Date()`. -/
def isExpired (dateVal : String → Int) (now : Int) (c : Credential) : Bool :=
  dateVal c.expiry_date < now

/-- The computed flags returned by `GET /api/credentials/:id` for a found
credential: `is_valid` from the signature, `is_expired` from the expiry
comparison. -/
def getCredentialFlags (H : List Char → String) (secret : String)
    (dateVal : String → Int) (now : Int) (c : Credential) : Bool × Bool :=
  (verifyCredentialSignature H secret c, isExpired dateVal now c)

/-- Model of `CreateCredentialRequest`: the validated issuance request body. -/
structure CreateCredentialRequest where
  holder_name : String
  credential_type : String
  expiry_date : Option String
deriving DecidableEq

/-- Model of `CredentialModel.findByHolderAndType`: `database.get` returns the first
row matching both columns. -/
def findByHolderAndType (db : List Credential) (holderName credentialType : String) :
    Option Credential :=
  db.find? (fun c => c.holder_name == holderName && c.credential_type == credentialType)

/-- Model of `CredentialModel.create`: assemble the canonical fields, sign, and build
the full credential.  `newId`, `workerId`, `now` and `defaultExpiry` model
`uuidv4()`, `process.env.WORKER_ID`, `new Date().toISOString()` and
`new Date(Date.now() + 365 days).toISOString()`. -/
def createCredential (H : List Char → String) (secret : String)
    (newId workerId now defaultExpiry : String)
    (req : CreateCredentialRequest) : Credential :=
  let expiry := req.expiry_date.getD defaultExpiry
  let cd : CanonicalData :=
    ⟨newId, req.holder_name, "Kube Credential Authority", now, req.credential_type, expiry, workerId⟩
  ⟨newId, req.holder_name, "Kube Credential Authority", now, req.credential_type, expiry,
    generateCredentialSignature H secret cd, workerId, now, now⟩

/-- Outcome of `CredentialController.issueCredential`: a 409 conflict
carrying the existing credential's data, or a 201 with the new
credential. -/
inductive IssueOutcome
  | conflict (existing_credential_id issued_date issued_by : String)
  | created (c : Credential)
deriving DecidableEq

/-- Model of `CredentialController.issueCredential` (after request validation):
duplicate check by (holder_name, credential_type), then create and insert. -/
def issueCredential (H : List Char → String) (secret : String)
    (newId workerId now defaultExpiry : String)
    (db : List Credential) (req : CreateCredentialRequest) :
    IssueOutcome × List Credential :=
  match findByHolderAndType db req.holder_name req.credential_type with
  | some existing =>
      (.conflict existing.id existing.issued_date existing.worker_id, db)
  | none =>
      let c := createCredential H secret newId workerId now defaultExpiry req
      (.created c, db ++ [c])

/-- Distinct canonical JSON payloads give distinct digests (for a
collision-free digest), so the recomputed signature differs from the
stored one. -/
theorem generate_ne_of_json_ne {H : List Char → String} {secret : String}
    (Hinj : Function.Injective H) {c c' : CanonicalData}
    (hne : canonicalJson c' ≠ canonicalJson c) :
    (generateCredentialSignature H secret c' == generateCredentialSignature H secret c) = false := by
  refine beq_eq_false_iff_ne.mpr fun heq => hne ?_
  exact List.append_cancel_right (Hinj heq)

/-- A concrete collision-free digest used by the witnesses. -/
def idDigest : List Char → String := fun l => String.mk l

theorem idDigest_injective : Function.Injective idDigest := by
  intro a b h
  simpa [idDigest] using congrArg String.data h

/-- A concrete canonical field set used by the witnesses. -/
def sampleCanon : CanonicalData :=
  ⟨"id-1", "John Doe", "Kube Credential Authority", "2024-01-01T00:00:00.000Z",
    "certificate", "2026-01-01T00:00:00.000Z", "worker-1"⟩

/-- A concrete credential whose signature was computed by the Signature
Engine over `sampleCanon` with the fallback secret. -/
def sampleCred : Credential :=
  ⟨"id-1", "John Doe", "Kube Credential Authority", "2024-01-01T00:00:00.000Z",
    "certificate", "2026-01-01T00:00:00.000Z",
    generateCredentialSignature idDigest "default-secret" sampleCanon,
    "worker-1", "2024-01-01T00:00:00.000Z", "2024-01-01T00:00:00.000Z"⟩

/-- C1: for every credential whose signature was computed by the Signature
Engine over its seven canonical fields with a fixed shared secret,
`verifyCredentialSignature` returns `true`; and changing any single one of
the seven canonical fields (leaving the stored signature unchanged) makes
`verifyCredentialSignature` return `false`, assuming the digest is
collision-free. -/
theorem C1_sign_verify_tamper
    (H : List Char → String) (secret : String) (Hinj : Function.Injective H)
    (cr : Credential)
    (hsig : cr.signature = generateCredentialSignature H secret cr.canon) :
    verifyCredentialSignature H secret cr = true
    ∧ (∀ v, v ≠ cr.id →
        verifyCredentialSignature H secret { cr with id := v } = false)
    ∧ (∀ v, v ≠ cr.holder_name →
        verifyCredentialSignature H secret { cr with holder_name := v } = false)
    ∧ (∀ v, v ≠ cr.issuer →
        verifyCredentialSignature H secret { cr with issuer := v } = false)
    ∧ (∀ v, v ≠ cr.issued_date →
        verifyCredentialSignature H secret { cr with issued_date := v } = false)
    ∧ (∀ v, v ≠ cr.credential_type →
        verifyCredentialSignature H secret { cr with credential_type := v } = false)
    ∧ (∀ v, v ≠ cr.expiry_date →
        verifyCredentialSignature H secret { cr with expiry_date := v } = false)
    ∧ (∀ v, v ≠ cr.worker_id →
        verifyCredentialSignature H secret { cr with worker_id := v } = false) := by
  obtain ⟨i, hn, iss, idt, ct, ed, sg, wid, ca, ua⟩ := cr
  simp only [Credential.canon] at hsig
  refine ⟨by simp [verifyCredentialSignature, Credential.canon, hsig], ?_, ?_, ?_, ?_, ?_, ?_, ?_⟩
  · intro v hv
    show (generateCredentialSignature H secret ⟨v, hn, iss, idt, ct, ed, wid⟩ == sg) = false
    rw [hsig]
    exact generate_ne_of_json_ne Hinj fun hj => hv (canonicalJson_id_inj hj)
  · intro v hv
    show (generateCredentialSignature H secret ⟨i, v, iss, idt, ct, ed, wid⟩ == sg) = false
    rw [hsig]
    exact generate_ne_of_json_ne Hinj fun hj => hv (canonicalJson_holder_inj hj)
  · intro v hv
    show (generateCredentialSignature H secret ⟨i, hn, v, idt, ct, ed, wid⟩ == sg) = false
    rw [hsig]
    exact generate_ne_of_json_ne Hinj fun hj => hv (canonicalJson_issuer_inj hj)
  · intro v hv
    show (generateCredentialSignature H secret ⟨i, hn, iss, v, ct, ed, wid⟩ == sg) = false
    rw [hsig]
    exact generate_ne_of_json_ne Hinj fun hj => hv (canonicalJson_issued_inj hj)
  · intro v hv
    show (generateCredentialSignature H secret ⟨i, hn, iss, idt, v, ed, wid⟩ == sg) = false
    rw [hsig]
    exact generate_ne_of_json_ne Hinj fun hj => hv (canonicalJson_type_inj hj)
  · intro v hv
    show (generateCredentialSignature H secret ⟨i, hn, iss, idt, ct, v, wid⟩ == sg) = false
    rw [hsig]
    exact generate_ne_of_json_ne Hinj fun hj => hv (canonicalJson_expiry_inj hj)
  · intro v hv
    show (generateCredentialSignature H secret ⟨i, hn, iss, idt, ct, ed, v⟩ == sg) = false
    rw [hsig]
    exact generate_ne_of_json_ne Hinj fun hj => hv (canonicalJson_worker_inj hj)

/-- Witness for C1 at a concrete signed credential and a concrete
collision-free digest. -/
theorem C1_sign_verify_tamper_witness :
    sampleCred.signature
        = generateCredentialSignature idDigest "default-secret" sampleCred.canon
    ∧ ("Jane Doe" : String) ≠ sampleCred.holder_name
    ∧ verifyCredentialSignature idDigest "default-secret" sampleCred = true
    ∧ verifyCredentialSignature idDigest "default-secret"
        { sampleCred with holder_name := "Jane Doe" } = false := by
  have h := C1_sign_verify_tamper idDigest "default-secret" idDigest_injective sampleCred rfl
  exact ⟨rfl, by decide, h.1, h.2.2.1 "Jane Doe" (by decide)⟩

/-- A lookup oracle answering an explicit "not found" for every id. -/
def constNotFound : String → LookupOutcome := fun _ => LookupOutcome.notFound

/-- A lookup oracle failing with a transport error for every id. -/
def constErr : String → LookupOutcome := fun _ => LookupOutcome.err

/-- A lookup oracle answering with a fixed authoritative credential. -/
def lookupOf (a : Credential) : String → LookupOutcome := fun _ => LookupOutcome.found a

/-- A concrete date valuation: every date string is the instant 0. -/
def zeroDate : String → Int := fun _ => 0

/-- C2: a submitted credential whose stored signature does not equal the
keyed hash recomputed from its own canonical fields terminates with status
`signature_mismatch`, and the inter-service lookup is never invoked on
that execution. -/
theorem C2_signature_mismatch_no_lookup
    (H : List Char → String) (secret : String) (lookup : String → LookupOutcome)
    (dateVal : String → Int) (now : Int) (vid workerId nowStr : String)
    (cred : Credential)
    (hbad : cred.signature ≠ generateCredentialSignature H secret cred.canon) :
    (runVerification H secret lookup dateVal now vid workerId nowStr cred).1.verification_status
        = VStatus.signature_mismatch
    ∧ (runVerification H secret lookup dateVal now vid workerId nowStr cred).2 = false := by
  have hv : verifyCredentialSignature H secret cred = false := by
    refine beq_eq_false_iff_ne.mpr fun h => hbad h.symm
  simp [runVerification, hv]

/-- Witness for C2 at a concrete tampered credential. -/
theorem C2_signature_mismatch_no_lookup_witness :
    ({ sampleCred with signature := "tampered" } : Credential).signature
        ≠ generateCredentialSignature idDigest "default-secret"
            ({ sampleCred with signature := "tampered" } : Credential).canon
    ∧ (runVerification idDigest "default-secret" constNotFound zeroDate 0 "v1" "w" "t"
        { sampleCred with signature := "tampered" }).1.verification_status
        = VStatus.signature_mismatch
    ∧ (runVerification idDigest "default-secret" constNotFound zeroDate 0 "v1" "w" "t"
        { sampleCred with signature := "tampered" }).2 = false := by
  have hbad : ({ sampleCred with signature := "tampered" } : Credential).signature
      ≠ generateCredentialSignature idDigest "default-secret"
          ({ sampleCred with signature := "tampered" } : Credential).canon := by decide
  have h := C2_signature_mismatch_no_lookup idDigest "default-secret" constNotFound zeroDate 0
    "v1" "w" "t" { sampleCred with signature := "tampered" } hbad
  exact ⟨hbad, h.1, h.2⟩

/-- C3: the field-equality step compares exactly the seven fields id,
holder_name, issuer, issued_date, credential_type, expiry_date and
signature between the submitted and the authoritative credential, and a
mismatch terminates the invocation with status `invalid` and
`is_valid = false`. -/
theorem C3_field_equality_step
    (H : List Char → String) (secret : String) (lookup : String → LookupOutcome)
    (dateVal : String → Int) (now : Int) (vid workerId nowStr : String)
    (cred auth : Credential)
    (hsig : verifyCredentialSignature H secret cred = true)
    (hlk : lookup cred.id = LookupOutcome.found auth) :
    (compareCredentials cred auth = true ↔
      (cred.id = auth.id ∧ cred.holder_name = auth.holder_name
        ∧ cred.issuer = auth.issuer ∧ cred.issued_date = auth.issued_date
        ∧ cred.credential_type = auth.credential_type
        ∧ cred.expiry_date = auth.expiry_date ∧ cred.signature = auth.signature))
    ∧ (compareCredentials cred auth = false →
        (runVerification H secret lookup dateVal now vid workerId nowStr cred).1.verification_status
            = VStatus.invalid
        ∧ (runVerification H secret lookup dateVal now vid workerId nowStr cred).1.is_valid
            = false) := by
  constructor
  · simp [compareCredentials, and_assoc]
  · intro hne
    simp [runVerification, hsig, hlk, hne]

/-- Witness for C3 at a concrete pair of differing credentials. -/
theorem C3_field_equality_step_witness :
    verifyCredentialSignature idDigest "default-secret" sampleCred = true
    ∧ (lookupOf { sampleCred with signature := "other" }) sampleCred.id
        = LookupOutcome.found { sampleCred with signature := "other" }
    ∧ compareCredentials sampleCred { sampleCred with signature := "other" } = false
    ∧ (runVerification idDigest "default-secret"
        (lookupOf { sampleCred with signature := "other" }) zeroDate 0 "v1" "w" "t"
        sampleCred).1.verification_status = VStatus.invalid := by
  have hsig : verifyCredentialSignature idDigest "default-secret" sampleCred = true := by decide
  have hne : compareCredentials sampleCred { sampleCred with signature := "other" } = false := by
    decide
  have h := C3_field_equality_step idDigest "default-secret"
    (lookupOf { sampleCred with signature := "other" }) zeroDate 0 "v1" "w" "t"
    sampleCred { sampleCred with signature := "other" } hsig rfl
  exact ⟨hsig, rfl, hne, (h.2 hne).1⟩

/-- C4: after the signature and field-equality checks pass, the expiration
step compares the authoritative expiry_date with the current time: if
expired the terminal status is `expired` (is_valid = false,
is_expired = true), otherwise `valid` (is_valid = true,
is_expired = false), and the result copies issuer_worker_id and
issued_date from the authoritative record. -/
theorem C4_expiration_step
    (H : List Char → String) (secret : String) (lookup : String → LookupOutcome)
    (dateVal : String → Int) (now : Int) (vid workerId nowStr : String)
    (cred auth : Credential)
    (hsig : verifyCredentialSignature H secret cred = true)
    (hlk : lookup cred.id = LookupOutcome.found auth)
    (hcmp : compareCredentials cred auth = true)
    (hw : auth.worker_id ≠ "") (hd : auth.issued_date ≠ "") :
    (dateVal auth.expiry_date < now →
      (runVerification H secret lookup dateVal now vid workerId nowStr cred).1.verification_status
          = VStatus.expired
      ∧ (runVerification H secret lookup dateVal now vid workerId nowStr cred).1.is_valid = false
      ∧ (runVerification H secret lookup dateVal now vid workerId nowStr cred).1.is_expired = true)
    ∧ (¬ dateVal auth.expiry_date < now →
      (runVerification H secret lookup dateVal now vid workerId nowStr cred).1.verification_status
          = VStatus.valid
      ∧ (runVerification H secret lookup dateVal now vid workerId nowStr cred).1.is_valid = true
      ∧ (runVerification H secret lookup dateVal now vid workerId nowStr cred).1.is_expired = false)
    ∧ (runVerification H secret lookup dateVal now vid workerId nowStr cred).1.issuer_worker_id
        = some auth.worker_id
    ∧ (runVerification H secret lookup dateVal now vid workerId nowStr cred).1.issued_date
        = some auth.issued_date := by
  have hexp : cred.expiry_date = auth.expiry_date := by
    simp only [compareCredentials, Bool.and_eq_true, beq_iff_eq] at hcmp
    exact hcmp.1.2
  by_cases hlt : dateVal auth.expiry_date < now
  · simp [runVerification, hsig, hlk, hcmp, hexp, hlt, optionalField, hw, hd]
  · simp [runVerification, hsig, hlk, hcmp, hexp, hlt, optionalField, hw, hd]

/-- Witness for C4 at a concrete authentic credential in the expired
branch. -/
theorem C4_expiration_step_witness :
    verifyCredentialSignature idDigest "default-secret" sampleCred = true
    ∧ compareCredentials sampleCred sampleCred = true
    ∧ sampleCred.worker_id ≠ "" ∧ sampleCred.issued_date ≠ ""
    ∧ zeroDate sampleCred.expiry_date < 1
    ∧ (runVerification idDigest "default-secret" (lookupOf sampleCred) zeroDate 1 "v1" "w" "t"
        sampleCred).1.verification_status = VStatus.expired
    ∧ (runVerification idDigest "default-secret" (lookupOf sampleCred) zeroDate 1 "v1" "w" "t"
        sampleCred).1.issuer_worker_id = some sampleCred.worker_id := by
  have hsig : verifyCredentialSignature idDigest "default-secret" sampleCred = true := by decide
  have hcmp : compareCredentials sampleCred sampleCred = true := by decide
  have h := C4_expiration_step idDigest "default-secret" (lookupOf sampleCred) zeroDate 1
    "v1" "w" "t" sampleCred sampleCred hsig rfl hcmp (by decide) (by decide)
  exact ⟨hsig, hcmp, by decide, by decide, by decide,
    (h.1 (by decide)).1, h.2.2.1⟩

/-- C5: a self-consistently signed credential whose id the issuance service
reports as not present terminates with status `not_found`
(is_valid = false), with issuer_worker_id and issued_date absent. -/
theorem C5_not_found_terminal
    (H : List Char → String) (secret : String) (lookup : String → LookupOutcome)
    (dateVal : String → Int) (now : Int) (vid workerId nowStr : String)
    (cred : Credential)
    (hsig : verifyCredentialSignature H secret cred = true)
    (hlk : lookup cred.id = LookupOutcome.notFound) :
    (runVerification H secret lookup dateVal now vid workerId nowStr cred).1.verification_status
        = VStatus.not_found
    ∧ (runVerification H secret lookup dateVal now vid workerId nowStr cred).1.is_valid = false
    ∧ (runVerification H secret lookup dateVal now vid workerId nowStr cred).1.issuer_worker_id
        = none
    ∧ (runVerification H secret lookup dateVal now vid workerId nowStr cred).1.issued_date
        = none := by
  simp [runVerification, hsig, hlk]

/-- Witness for C5 at a concrete self-signed credential and the
"not found" oracle. -/
theorem C5_not_found_terminal_witness :
    verifyCredentialSignature idDigest "default-secret" sampleCred = true
    ∧ constNotFound sampleCred.id = LookupOutcome.notFound
    ∧ (runVerification idDigest "default-secret" constNotFound zeroDate 0 "v1" "w" "t"
        sampleCred).1.verification_status = VStatus.not_found
    ∧ (runVerification idDigest "default-secret" constNotFound zeroDate 0 "v1" "w" "t"
        sampleCred).1.issuer_worker_id = none := by
  have hsig : verifyCredentialSignature idDigest "default-secret" sampleCred = true := by decide
  have h := C5_not_found_terminal idDigest "default-secret" constNotFound zeroDate 0 "v1" "w" "t"
    sampleCred hsig rfl
  exact ⟨hsig, rfl, h.1, h.2.2.1⟩

/-- C6: every verification invocation persists exactly one
VerificationResult record (the store grows by exactly the returned record)
before returning; an internal exception during the lookup is folded into
status `invalid` rather than propagating, and that result is still
persisted. -/
theorem C6_exactly_one_record
    (H : List Char → String) (secret : String) (lookup : String → LookupOutcome)
    (dateVal : String → Int) (now : Int) (vid workerId nowStr : String)
    (cred : Credential) (db : List VerificationRecord) :
    (verifyCredentialAndSave H secret lookup dateVal now vid workerId nowStr cred db).2.2
        = db ++ [(verifyCredentialAndSave H secret lookup dateVal now vid workerId nowStr cred db).1]
    ∧ (verifyCredentialAndSave H secret lookup dateVal now vid workerId nowStr cred db).2.2.length
        = db.length + 1
    ∧ (verifyCredentialSignature H secret cred = true → lookup cred.id = LookupOutcome.err →
        (verifyCredentialAndSave H secret lookup dateVal now vid workerId nowStr cred db).1.verification_status
            = VStatus.invalid) := by
  refine ⟨rfl, by simp [verifyCredentialAndSave, saveVerification], ?_⟩
  intro hsig herr
  simp [verifyCredentialAndSave, runVerification, hsig, herr]

/-- Witness for C6 at a concrete credential, the failing oracle, and the
empty store. -/
theorem C6_exactly_one_record_witness :
    verifyCredentialSignature idDigest "default-secret" sampleCred = true
    ∧ constErr sampleCred.id = LookupOutcome.err
    ∧ (verifyCredentialAndSave idDigest "default-secret" constErr zeroDate 0 "v1" "w" "t"
        sampleCred []).2.2.length = 1
    ∧ (verifyCredentialAndSave idDigest "default-secret" constErr zeroDate 0 "v1" "w" "t"
        sampleCred []).1.verification_status = VStatus.invalid := by
  have hsig : verifyCredentialSignature idDigest "default-secret" sampleCred = true := by decide
  have h := C6_exactly_one_record idDigest "default-secret" constErr zeroDate 0 "v1" "w" "t"
    sampleCred []
  exact ⟨hsig, rfl, h.2.1, h.2.2 hsig rfl⟩

/-- C7: an issuance request whose (holder_name, credential_type) pair
matches an already-stored credential creates nothing: it yields a 409
conflict carrying the existing credential's id, issued_date and worker_id,
and the credential store is unchanged. -/
theorem C7_duplicate_issuance_conflict
    (H : List Char → String) (secret newId workerId now defaultExpiry : String)
    (db : List Credential) (req : CreateCredentialRequest)
    (hdup : ∃ c ∈ db, c.holder_name = req.holder_name
        ∧ c.credential_type = req.credential_type) :
    ∃ e ∈ db, e.holder_name = req.holder_name ∧ e.credential_type = req.credential_type
      ∧ issueCredential H secret newId workerId now defaultExpiry db req
          = (IssueOutcome.conflict e.id e.issued_date e.worker_id, db) := by
  obtain ⟨c, hc, h1, h2⟩ := hdup
  have hsome : (findByHolderAndType db req.holder_name req.credential_type).isSome := by
    rw [findByHolderAndType, List.find?_isSome]
    exact ⟨c, hc, by simp [h1, h2]⟩
  obtain ⟨e, he⟩ := Option.isSome_iff_exists.mp hsome
  have he' : db.find? (fun c => c.holder_name == req.holder_name
      && c.credential_type == req.credential_type) = some e := he
  have hmem : e ∈ db := List.mem_of_find?_eq_some he'
  have hp := List.find?_some he'
  simp only [Bool.and_eq_true, beq_iff_eq] at hp
  exact ⟨e, hmem, hp.1, hp.2, by simp [issueCredential, he]⟩

/-- Witness for C7 at a concrete store holding one credential for the
requested holder and type. -/
theorem C7_duplicate_issuance_conflict_witness :
    (∃ c ∈ [sampleCred], c.holder_name = "John Doe" ∧ c.credential_type = "certificate")
    ∧ ∃ e ∈ [sampleCred], e.holder_name = "John Doe" ∧ e.credential_type = "certificate"
      ∧ issueCredential idDigest "default-secret" "id-2" "worker-2" "t2" "e2" [sampleCred]
            ⟨"John Doe", "certificate", none⟩
          = (IssueOutcome.conflict e.id e.issued_date e.worker_id, [sampleCred]) := by
  have hdup : ∃ c ∈ [sampleCred], c.holder_name = "John Doe"
      ∧ c.credential_type = "certificate" := ⟨sampleCred, by simp, rfl, rfl⟩
  exact ⟨hdup, C7_duplicate_issuance_conflict idDigest "default-secret" "id-2" "worker-2" "t2"
    "e2" [sampleCred] ⟨"John Doe", "certificate", none⟩ hdup⟩

/-- C8 counterexample: at a concrete self-signed credential whose lookup
fails with a transport error, the verification workflow does NOT stop
short of the five verification outcomes: it classifies the invocation as
`invalid` and persists that record, contradicting the claim that a
transport failure yields a 5xx rather than a verification status and is
never recorded. -/
theorem C8_counterexample :
    (verifyCredentialAndSave idDigest "default-secret" constErr zeroDate 0 "v1" "w" "t"
        sampleCred []).1.verification_status = VStatus.invalid
    ∧ (verifyCredentialAndSave idDigest "default-secret" constErr zeroDate 0 "v1" "w" "t"
        sampleCred []).2.2
      = [(verifyCredentialAndSave idDigest "default-secret" constErr zeroDate 0 "v1" "w" "t"
        sampleCred []).1] := by
  exact ⟨by decide, rfl⟩

/-- C8 (amended): when the inter-service lookup fails with a transport
error, the catch branch of `VerificationModel.verifyCredential` folds the
failure into verification status `invalid` (is_valid = false,
is_expired = false); this result is persisted like any other outcome and
returned to the caller as a normal verification outcome, not surfaced as a
distinct error. -/
theorem C8_transport_error_folded_to_invalid
    (H : List Char → String) (secret : String) (lookup : String → LookupOutcome)
    (dateVal : String → Int) (now : Int) (vid workerId nowStr : String)
    (cred : Credential) (db : List VerificationRecord)
    (hsig : verifyCredentialSignature H secret cred = true)
    (herr : lookup cred.id = LookupOutcome.err) :
    (verifyCredentialAndSave H secret lookup dateVal now vid workerId nowStr cred db).1.verification_status
        = VStatus.invalid
    ∧ (verifyCredentialAndSave H secret lookup dateVal now vid workerId nowStr cred db).1.is_valid
        = false
    ∧ (verifyCredentialAndSave H secret lookup dateVal now vid workerId nowStr cred db).1.is_expired
        = false
    ∧ (verifyCredentialAndSave H secret lookup dateVal now vid workerId nowStr cred db).2.2
        = db ++ [(verifyCredentialAndSave H secret lookup dateVal now vid workerId nowStr cred db).1] := by
  refine ⟨?_, ?_, ?_, rfl⟩ <;>
    simp [verifyCredentialAndSave, runVerification, hsig, herr]

/-- Witness for the amended C8 at a concrete credential and the failing
oracle. -/
theorem C8_transport_error_folded_to_invalid_witness :
    verifyCredentialSignature idDigest "default-secret" sampleCred = true
    ∧ constErr sampleCred.id = LookupOutcome.err
    ∧ (verifyCredentialAndSave idDigest "default-secret" constErr zeroDate 0 "v2" "w" "t"
        sampleCred []).1.verification_status = VStatus.invalid
    ∧ (verifyCredentialAndSave idDigest "default-secret" constErr zeroDate 0 "v2" "w" "t"
        sampleCred []).1.is_valid = false := by
  have hsig : verifyCredentialSignature idDigest "default-secret" sampleCred = true := by decide
  have h := C8_transport_error_folded_to_invalid idDigest "default-secret" constErr zeroDate 0
    "v2" "w" "t" sampleCred [] hsig rfl
  exact ⟨hsig, rfl, h.1, h.2.1⟩

/-- C9: the expiration comparison is strict: a credential whose expiry_date
valuates exactly to the current time is not expired — `isExpired` is false,
the GET endpoint reports is_expired = false, and the verification workflow
(under passing signature, lookup and field-equality steps) returns `valid`;
only a strictly earlier expiry_date counts as expired. -/
theorem C9_expiry_strict_boundary
    (H : List Char → String) (secret : String) (lookup : String → LookupOutcome)
    (dateVal : String → Int) (now : Int) (vid workerId nowStr : String)
    (cred auth : Credential)
    (hsig : verifyCredentialSignature H secret cred = true)
    (hlk : lookup cred.id = LookupOutcome.found auth)
    (hcmp : compareCredentials cred auth = true)
    (heq : dateVal cred.expiry_date = now) :
    (∀ c' : Credential, isExpired dateVal now c' = true ↔ dateVal c'.expiry_date < now)
    ∧ isExpired dateVal now cred = false
    ∧ (getCredentialFlags H secret dateVal now cred).2 = false
    ∧ (runVerification H secret lookup dateVal now vid workerId nowStr cred).1.verification_status
        = VStatus.valid
    ∧ (runVerification H secret lookup dateVal now vid workerId nowStr cred).1.is_valid = true
    ∧ (runVerification H secret lookup dateVal now vid workerId nowStr cred).1.is_expired
        = false := by
  have hnlt : ¬ dateVal cred.expiry_date < now := by rw [heq]; exact lt_irrefl now
  refine ⟨fun c' => by simp [isExpired], by simp [isExpired, hnlt],
    by simp [getCredentialFlags, isExpired, hnlt], ?_, ?_, ?_⟩ <;>
    simp [runVerification, hsig, hlk, hcmp, hnlt]

/-- Witness for C9 at a concrete credential whose expiry valuates exactly
to the current instant. -/
theorem C9_expiry_strict_boundary_witness :
    verifyCredentialSignature idDigest "default-secret" sampleCred = true
    ∧ compareCredentials sampleCred sampleCred = true
    ∧ zeroDate sampleCred.expiry_date = 0
    ∧ isExpired zeroDate 0 sampleCred = false
    ∧ (runVerification idDigest "default-secret" (lookupOf sampleCred) zeroDate 0 "v1" "w" "t"
        sampleCred).1.verification_status = VStatus.valid := by
  have hsig : verifyCredentialSignature idDigest "default-secret" sampleCred = true := by decide
  have hcmp : compareCredentials sampleCred sampleCred = true := by decide
  have h := C9_expiry_strict_boundary idDigest "default-secret" (lookupOf sampleCred) zeroDate 0
    "v1" "w" "t" sampleCred sampleCred hsig rfl hcmp rfl
  exact ⟨hsig, hcmp, rfl, h.2.1, h.2.2.2.1⟩

/-- C10: the bookkeeping timestamps are invisible to verification: two
submitted credentials identical except in created_at and updated_at
produce, against the same issuance-service response, the same
verification_status, is_valid and is_expired. -/
theorem C10_timestamps_invisible
    (H : List Char → String) (secret : String) (lookup : String → LookupOutcome)
    (dateVal : String → Int) (now : Int) (vid workerId nowStr : String)
    (c1 c2 : Credential)
    (hid : c1.id = c2.id) (hhn : c1.holder_name = c2.holder_name)
    (hiss : c1.issuer = c2.issuer) (hidt : c1.issued_date = c2.issued_date)
    (hct : c1.credential_type = c2.credential_type)
    (hed : c1.expiry_date = c2.expiry_date) (hsg : c1.signature = c2.signature)
    (hwid : c1.worker_id = c2.worker_id) :
    (runVerification H secret lookup dateVal now vid workerId nowStr c1).1.verification_status
        = (runVerification H secret lookup dateVal now vid workerId nowStr c2).1.verification_status
    ∧ (runVerification H secret lookup dateVal now vid workerId nowStr c1).1.is_valid
        = (runVerification H secret lookup dateVal now vid workerId nowStr c2).1.is_valid
    ∧ (runVerification H secret lookup dateVal now vid workerId nowStr c1).1.is_expired
        = (runVerification H secret lookup dateVal now vid workerId nowStr c2).1.is_expired := by
  obtain ⟨i1, n1, s1, d1, t1, e1, g1, w1, ca1, ua1⟩ := c1
  obtain ⟨i2, n2, s2, d2, t2, e2, g2, w2, ca2, ua2⟩ := c2
  simp only at hid hhn hiss hidt hct hed hsg hwid
  subst hid hhn hiss hidt hct hed hsg hwid
  have hrun : runVerification H secret lookup dateVal now vid workerId nowStr
        ⟨i1, n1, s1, d1, t1, e1, g1, w1, ca1, ua1⟩
      = runVerification H secret lookup dateVal now vid workerId nowStr
        ⟨i1, n1, s1, d1, t1, e1, g1, w1, ca2, ua2⟩ := by
    simp only [runVerification, verifyCredentialSignature, generateCredentialSignature,
      Credential.canon, compareCredentials]
  rw [hrun]
  exact ⟨rfl, rfl, rfl⟩

/-- Witness for C10 at a concrete pair differing only in the bookkeeping
timestamps. -/
theorem C10_timestamps_invisible_witness :
    ({ sampleCred with created_at := "T1", updated_at := "T2" } : Credential).id = sampleCred.id
    ∧ (runVerification idDigest "default-secret" constNotFound zeroDate 0 "v1" "w" "t"
        { sampleCred with created_at := "T1", updated_at := "T2" }).1.verification_status
      = (runVerification idDigest "default-secret" constNotFound zeroDate 0 "v1" "w" "t"
        sampleCred).1.verification_status := by
  have h := C10_timestamps_invisible idDigest "default-secret" constNotFound zeroDate 0
    "v1" "w" "t" { sampleCred with created_at := "T1", updated_at := "T2" } sampleCred
    rfl rfl rfl rfl rfl rfl rfl rfl
  exact ⟨rfl, h.1⟩

end KubeCred
